import Mathlib

/-!
Shallow embedding of the Chapa payment subsystem of `alx_travel_app`
(`listings/views.py`: `initiate_chapa_payment`, `verify_chapa_payment`;
`listings/models.py`: `Payment`, `Booking`; `listings/tasks.py`:
`send_payment_confirmation_email` enqueue).

Conventions of the embedding:
* Decimal amounts are modelled as rationals (`ℚ`); the source compares them
  with exact `float` equality, which rational equality abstracts.
* A transaction reference `f"{booking.booking_id.hex}-{uuid.uuid4().hex}"`
  is modelled as the pair of its two hex components (the components are hex
  strings, so the dash-separated rendering is injective on components).
* The gateway (`requests.post` / `requests.get` + `.raise_for_status()` +
  `.json()`) is modelled as an explicit input: either a decoded JSON body
  (with the optional fields the source reads via `.get`) or a transport
  error (`requests.exceptions.RequestException`).
* The Celery `.delay(...)` enqueue is modelled by an input flag saying
  whether the enqueue call raises, plus an emitted `Event` when it succeeds.
* Each operation returns its HTTP response, the new store state, and the
  list of externally visible events in the order they occurred.
* `django.shortcuts.get_object_or_404` raises `Http404`, which is an
  `Exception` but not a `Payment.DoesNotExist`; in `verify_chapa_payment`
  it is therefore caught by the final `except Exception` handler, and that
  is how the lookup-miss path is embedded.
-/

namespace AlxTravel

/-- Status of a `Booking` (`Booking.BookingStatusChoices`). -/
inductive BookingStatus where
  | pending
  | confirmed
  | canceled
deriving DecidableEq, Repr

/-- Status of a `Payment` (`Payment.ChapaPaymentStatusChoices`). -/
inductive PaymentStatus where
  | pending
  | completed
  | failed
  | canceled
  | reversed
deriving DecidableEq, Repr

/-- The lowercase rendering `payment.status.lower()` of the stored status
value (`PENDING`, `COMPLETED`, `FAILED`, `CANCELLED`, `REVERSED`). -/
def statusLower : PaymentStatus → String
  | .pending => "pending"
  | .completed => "completed"
  | .failed => "failed"
  | .canceled => "cancelled"
  | .reversed => "reversed"

/-- A transaction reference `f"{booking.booking_id.hex}-{uuid.uuid4().hex}"`,
kept as its two hex components. -/
structure TxRef where
  bookingHex : String
  nonce : String
deriving DecidableEq, Repr

/-- The string rendering of a transaction reference. -/
def renderRef (r : TxRef) : String := r.bookingHex ++ "-" ++ r.nonce

/-- A `Booking` row, restricted to the fields the payment flow reads. -/
structure BookingRec where
  bookingId : String
  userId : String
  userEmail : String
  totalPrice : ℚ
  status : BookingStatus
deriving DecidableEq, Repr

/-- A `Payment` row, restricted to the fields the payment flow reads. -/
structure PaymentRec where
  paymentId : String
  bookingId : String
  amount : ℚ
  txRef : TxRef
  status : PaymentStatus
  statusText : String
deriving DecidableEq, Repr

/-- The two tables the orchestrator reads and writes. -/
structure AppState where
  bookings : List BookingRec
  payments : List PaymentRec
deriving DecidableEq, Repr

/-- `Payment.objects.get(chapa_transaction_id=tx_ref)` /
`get_object_or_404(Payment, chapa_transaction_id=tx_ref)`: first row whose
reference matches (the column carries a DB `unique=True` constraint). -/
def findPayment : List PaymentRec → TxRef → Option PaymentRec
  | [], _ => none
  | p :: ps, r => if p.txRef = r then some p else findPayment ps r

/-- `Booking.objects.get(booking_id=...)` via the `payment.booking` FK. -/
def findBooking : List BookingRec → String → Option BookingRec
  | [], _ => none
  | b :: bs, i => if b.bookingId = i then some b else findBooking bs i

/-- `Booking.objects.get(booking_id=booking_id, user=request.user)`. -/
def findOwnedBooking : List BookingRec → String → String → Option BookingRec
  | [], _, _ => none
  | b :: bs, i, u =>
      if b.bookingId = i ∧ b.userId = u then some b else findOwnedBooking bs i u

/-- `payment.save()`: write back the (unique-ref) row. -/
def updatePayment (ps : List PaymentRec) (r : TxRef)
    (f : PaymentRec → PaymentRec) : List PaymentRec :=
  ps.map fun p => if p.txRef = r then f p else p

/-- `booking.save()`: write back the row with the given primary key. -/
def updateBooking (bs : List BookingRec) (i : String)
    (f : BookingRec → BookingRec) : List BookingRec :=
  bs.map fun b => if b.bookingId = i then f b else b

/-- The decoded `data` object of a Chapa verify response; both fields are
read with `.get`, so they are optional. -/
structure VerifyData where
  status : Option String
  message : Option String
deriving DecidableEq, Repr

/-- The decoded body of a Chapa verify response
`{ "status": ..., "message": ..., "data": { ... } }`. -/
structure VerifyBody where
  status : Option String
  message : Option String
  data : VerifyData
deriving DecidableEq, Repr

/-- Outcome of the `requests.get(CHAPA_VERIFY_URL + tx_ref)` call:
a decoded body, or a `requests.exceptions.RequestException` with message. -/
inductive GatewayVerifyResult where
  | ok (body : VerifyBody)
  | transportError (e : String)
deriving DecidableEq, Repr

/-- The decoded `data` object of a Chapa initialize response; the source
reads `response_data['data']['checkout_url']` only on the success branch. -/
structure InitData where
  checkoutUrl : String
deriving DecidableEq, Repr

/-- The decoded body of a Chapa initialize response. -/
structure InitBody where
  status : Option String
  message : Option String
  data : InitData
deriving DecidableEq, Repr

/-- Outcome of the `requests.post(CHAPA_INITIATE_URL, ...)` call. -/
inductive GatewayInitResult where
  | ok (body : InitBody)
  | transportError (e : String)
deriving DecidableEq, Repr

/-- Distinguishable JSON error bodies produced by the two views. -/
inductive Msg where
  | authRequired
  | bookingAndAmountRequired
  | amountMismatch (amount total : ℚ)
  | bookingNotFound
  | chapaText (t : String)
  | couldNotConnect
  | internalError (t : String)
deriving DecidableEq, Repr

/-- An HTTP response of the payment views: a redirect, a JSON error body
with its status code, or the JSON success body of a payment initiation. -/
inductive Resp where
  | redirect (url : String)
  | jsonErr (code : Nat) (msg : Msg)
  | initiateOk (checkoutUrl : String) (txRef : String)
deriving DecidableEq, Repr

/-- Externally visible events, in occurrence order: a `Payment` row created
with a status, an outbound gateway initialize call, an outbound gateway
verify call, and a `send_payment_confirmation_email.delay(...)` enqueue
with its payload. -/
inductive Event where
  | paymentCreated (ref : TxRef) (st : PaymentStatus)
  | gatewayInitiate (ref : TxRef)
  | gatewayVerify (ref : TxRef)
  | enqueuePaymentEmail (paymentId : String) (email : String)
      (amount : ℚ) (bookingRef : String)
deriving DecidableEq, Repr

/-- Whether an event is a notification-job enqueue. -/
def Event.isEnqueue : Event → Bool
  | .enqueuePaymentEmail _ _ _ _ => true
  | _ => false

/-- Result of one view invocation: response, new state, event trace. -/
structure Outcome where
  resp : Resp
  state : AppState
  events : List Event
deriving DecidableEq, Repr

/-- The `/payment-status/?tx_ref=...&status=...` redirect target of the
already-terminal guard. -/
def statusPageUrl (ref : TxRef) (st : PaymentStatus) : String :=
  "/payment-status/?tx_ref=" ++ renderRef ref ++ "&status=" ++ statusLower st

/-- The `/payment-fail/?tx_ref=...&status=...` redirect target of the
verified-failure branch, carrying the diagnostic text. -/
def failTextUrl (ref : TxRef) (text : String) : String :=
  "/payment-fail/?tx_ref=" ++ renderRef ref ++ "&status=" ++ text

/-- The `/payment-fail/?tx_ref=...&error=api_error` redirect target of the
`requests.exceptions.RequestException` handler of verification. -/
def apiErrorUrl (ref : TxRef) : String :=
  "/payment-fail/?tx_ref=" ++ renderRef ref ++ "&error=api_error"

/-- The `/payment-fail/?tx_ref=...&error=internal_error` redirect target of
the final `except Exception` handler of verification. -/
def internalErrorUrl (ref : TxRef) : String :=
  "/payment-fail/?tx_ref=" ++ renderRef ref ++ "&error=internal_error"

/-- `verify_chapa_payment(request, tx_ref)` (`views.py` lines 554-629).

Inputs beyond the state and path parameter: the outcome `gw` of the single
gateway verify call this invocation would make, and `enqueueOk`, whether
the Celery `.delay(...)` enqueue succeeds or raises.

Branches, in source order:
* lookup miss: `get_object_or_404` raises `Http404`, which falls through
  `except Payment.DoesNotExist` into `except Exception` — no row bound, no
  mutation, redirect to the internal-error fail page;
* terminal guard: status `COMPLETED` or `FAILED` short-circuits to the
  status-page redirect, with no gateway call;
* transport error: writes `FAILED` only when the row is still `PENDING`,
  then redirects to the api-error fail page;
* nested success (`status == 'success'` outer and inner): writes
  `COMPLETED` with the inner status text, confirms the booking when not
  already confirmed, enqueues the confirmation email; if the enqueue
  raises, the `except Exception` handler finds the row no longer `PENDING`,
  leaves state alone and redirects to the internal-error fail page;
* anything else: writes `FAILED` with
  `data.get('message', body.get('message', 'Payment verification failed.'))`
  and redirects to the fail page carrying that text. -/
def verify_chapa_payment (s : AppState) (ref : TxRef)
    (gw : GatewayVerifyResult) (enqueueOk : Bool) : Outcome :=
  match findPayment s.payments ref with
  | none => ⟨.redirect (internalErrorUrl ref), s, []⟩
  | some payment =>
    if payment.status = .completed ∨ payment.status = .failed then
      ⟨.redirect (statusPageUrl ref payment.status), s, []⟩
    else
      match gw with
      | .transportError e =>
        if payment.status = .pending then
          ⟨.redirect (apiErrorUrl ref),
           { s with payments := updatePayment s.payments ref (fun p =>
               { p with status := .failed,
                        statusText := "API Verification Error: " ++ e }) },
           [.gatewayVerify ref]⟩
        else
          ⟨.redirect (apiErrorUrl ref), s, [.gatewayVerify ref]⟩
      | .ok body =>
        if body.status = some "success" ∧ body.data.status = some "success" then
          let s1 : AppState :=
            { s with payments := updatePayment s.payments ref (fun p =>
                { p with status := .completed,
                         statusText :=
                           body.data.status.getD "Payment completed successfully." }) }
          match findBooking s1.bookings payment.bookingId with
          | none =>
            -- `payment.booking` raises; the row is already `COMPLETED`, so
            -- the `except Exception` handler leaves it untouched.
            ⟨.redirect (internalErrorUrl ref), s1, [.gatewayVerify ref]⟩
          | some b =>
            let confirmBk : BookingRec → BookingRec :=
              fun bk => { bk with status := .confirmed }
            let s2 : AppState :=
              if b.status ≠ .confirmed then
                { s1 with bookings := updateBooking s1.bookings b.bookingId confirmBk }
              else s1
            if enqueueOk then
              ⟨.redirect "/payment-success/", s2,
               [.gatewayVerify ref,
                .enqueuePaymentEmail payment.paymentId b.userEmail
                  payment.amount b.bookingId]⟩
            else
              ⟨.redirect (internalErrorUrl ref), s2, [.gatewayVerify ref]⟩
        else
          let text :=
            body.data.message.getD (body.message.getD "Payment verification failed.")
          ⟨.redirect (failTextUrl ref text),
           { s with payments := updatePayment s.payments ref (fun p =>
               { p with status := .failed, statusText := text }) },
           [.gatewayVerify ref]⟩

/-- The decoded POST body of `initiate_chapa_payment`: `data.get(...)`
yields optional fields; the requesting user comes from `request.user`. -/
structure InitiateReq where
  authenticated : Bool
  userId : String
  bookingId : Option String
  amount : Option ℚ
deriving DecidableEq, Repr

/-- `initiate_chapa_payment(request)` (`views.py` lines 422-522), on a POST
with a well-formed JSON body.

Inputs beyond the state and request: `fresh`, the `uuid.uuid4().hex` drawn
for this invocation; `newPid`, the new row's primary key; and `gw`, the
outcome of the single gateway initialize call.

Branches, in source order:
* unauthenticated: 401, no mutation;
* `if not booking_id or not amount` (Python truthiness: absent or empty
  string / absent or zero): 400, no mutation;
* booking lookup by id and owner: miss is 404, no mutation;
* `float(amount) != float(booking.total_price)`: 400 mismatch, no mutation;
* build `tx_ref` from the booking id hex and the fresh uuid hex; create the
  `PENDING` row before the gateway call.  The column is DB-unique, so a
  reference collision makes `Payment.objects.create` raise, caught by
  `except Exception`: 500, no row created;
* gateway transport error: the row, still `PENDING`, is written `FAILED`
  (the handler's `payment.status == PENDING` guard holds — the row was just
  created `PENDING`), 500;
* gateway body with `status == 'success'`: store the acknowledgement text,
  leave the row `PENDING`, return the checkout URL and reference;
* any other body: write `FAILED` with
  `body.get('message', 'Failed to initiate payment with Chapa.')`, 400. -/
def initiate_chapa_payment (s : AppState) (req : InitiateReq)
    (fresh newPid : String) (gw : GatewayInitResult) : Outcome :=
  if ¬ req.authenticated then
    ⟨.jsonErr 401 .authRequired, s, []⟩
  else
    match req.bookingId, req.amount with
    | some bid, some amt =>
      if bid = "" ∨ amt = 0 then
        ⟨.jsonErr 400 .bookingAndAmountRequired, s, []⟩
      else
        match findOwnedBooking s.bookings bid req.userId with
        | none => ⟨.jsonErr 404 .bookingNotFound, s, []⟩
        | some b =>
          if amt ≠ b.totalPrice then
            ⟨.jsonErr 400 (.amountMismatch amt b.totalPrice), s, []⟩
          else
            let ref : TxRef := ⟨b.bookingId, fresh⟩
            if ∃ p ∈ s.payments, p.txRef = ref then
              ⟨.jsonErr 500 (.internalError "UNIQUE constraint failed"), s, []⟩
            else
              let newP : PaymentRec :=
                ⟨newPid, b.bookingId, amt, ref, .pending, "Initiation pending"⟩
              let s1 : AppState := { s with payments := s.payments ++ [newP] }
              let evs : List Event :=
                [.paymentCreated ref .pending, .gatewayInitiate ref]
              match gw with
              | .transportError e =>
                ⟨.jsonErr 500 .couldNotConnect,
                 { s1 with payments := updatePayment s1.payments ref (fun p =>
                     { p with status := .failed,
                              statusText := "API Request Error: " ++ e }) },
                 evs⟩
              | .ok body =>
                if body.status = some "success" then
                  let ack : String :=
                    body.message.getD "Payment initiation successful, awaiting completion."
                  ⟨.initiateOk body.data.checkoutUrl (renderRef ref),
                   { s1 with payments := updatePayment s1.payments ref (fun p =>
                       { p with statusText := ack }) },
                   evs⟩
                else
                  let text := body.message.getD "Failed to initiate payment with Chapa."
                  ⟨.jsonErr 400 (.chapaText text),
                   { s1 with payments := updatePayment s1.payments ref (fun p =>
                       { p with status := .failed, statusText := text }) },
                   evs⟩
    | _, _ => ⟨.jsonErr 400 .bookingAndAmountRequired, s, []⟩

/-- A pending booking owned by user `u1`, total price 800. -/
def bookingA : BookingRec := ⟨"b1", "u1", "guest@example.com", 800, .pending⟩

/-- The transaction reference of the fixture payment. -/
def refA : TxRef := ⟨"b1", "n1"⟩

/-- A pending payment of 800 against `bookingA`. -/
def payA : PaymentRec := ⟨"pay1", "b1", 800, refA, .pending, "Initiation pending"⟩

/-- A store holding exactly `bookingA` and `payA`. -/
def sA : AppState := ⟨[bookingA], [payA]⟩

/-- A gateway verify body reporting nested success. -/
def gwSuccess : GatewayVerifyResult :=
  .ok ⟨some "success", some "Payment details", ⟨some "success", none⟩⟩

/-- A gateway verify body reporting nested failure with a data message. -/
def gwDeclined : GatewayVerifyResult :=
  .ok ⟨some "success", some "Payment details", ⟨some "failed", some "insufficient funds"⟩⟩

/-- The row update the nested-success branch applies to the payment:
status `COMPLETED`, status text the inner `"success"` value. -/
def completeP : PaymentRec → PaymentRec :=
  fun q => { q with status := .completed, statusText := "success" }

/-- The row update applied to a booking on payment success. -/
def confirmB : BookingRec → BookingRec :=
  fun bk => { bk with status := .confirmed }

/-- The store after the nested-success branch: payment completed, booking
confirmed when it was not already. -/
def successState (s : AppState) (ref : TxRef) (b : BookingRec) : AppState :=
  if b.status ≠ .confirmed then
    ⟨updateBooking s.bookings b.bookingId confirmB,
     updatePayment s.payments ref completeP⟩
  else
    ⟨s.bookings, updatePayment s.payments ref completeP⟩

/-- A completed copy of `payA`, as the success path leaves it. -/
def payDone : PaymentRec := { payA with status := .completed, statusText := "success" }

/-- A store holding `bookingA` (confirmed) and the completed `payDone`. -/
def sDone : AppState := ⟨[{ bookingA with status := .confirmed }], [payDone]⟩

/-- A well-formed initiation request from user `u1` for booking `b1`. -/
def reqA : InitiateReq := ⟨true, "u1", some "b1", some 800⟩

/-- A gateway initialize body reporting success with a checkout URL. -/
def gwInitOk : GatewayInitResult :=
  .ok ⟨some "success", some "Hosted Link", ⟨"https://checkout.chapa.co/xyz"⟩⟩

/-- The diagnostic text of the verified-failure branch:
`response_data['data'].get('message', response_data.get('message',
'Payment verification failed.'))`. -/
def failText (body : VerifyBody) : String :=
  body.data.message.getD (body.message.getD "Payment verification failed.")

/-- A canceled copy of `payA` (user canceled on the gateway page). -/
def payCan : PaymentRec := { payA with status := .canceled }

/-- A store holding `bookingA` and the canceled `payCan`. -/
def sCan : AppState := ⟨[bookingA], [payCan]⟩

/-- A gateway initialize body reporting a rejection. -/
def gwInitBadBody : InitBody := ⟨some "failed", some "declined by issuer", ⟨""⟩⟩

/-! ### Properties -/

example :
    verify_chapa_payment sA refA gwSuccess true =
      ⟨.redirect "/payment-success/",
       ⟨[{ bookingA with status := .confirmed }],
        [{ payA with status := .completed, statusText := "success" }]⟩,
       [.gatewayVerify refA,
        .enqueuePaymentEmail "pay1" "guest@example.com" 800 "b1"]⟩ := by
  decide

example :
    (verify_chapa_payment sA refA gwDeclined true).resp =
      .redirect "/payment-fail/?tx_ref=b1-n1&status=insufficient funds" := by
  decide

theorem findPayment_updatePayment (ps : List PaymentRec) (r : TxRef)
    (f : PaymentRec → PaymentRec) (hf : ∀ p, (f p).txRef = p.txRef) :
    findPayment (updatePayment ps r f) r = (findPayment ps r).map f := by
  induction ps with
  | nil => rfl
  | cons p ps ih =>
    by_cases h : p.txRef = r
    · simp [findPayment, updatePayment, h, hf p]
    · simpa [findPayment, updatePayment, h] using ih

theorem findBooking_updateBooking (bs : List BookingRec) (i : String)
    (f : BookingRec → BookingRec) (hf : ∀ b, (f b).bookingId = b.bookingId) :
    findBooking (updateBooking bs i f) i = (findBooking bs i).map f := by
  induction bs with
  | nil => rfl
  | cons b bs ih =>
    by_cases h : b.bookingId = i
    · simp [findBooking, updateBooking, h, hf b]
    · simpa [findBooking, updateBooking, h] using ih

theorem mem_updatePayment_of_ne {ps : List PaymentRec} {r : TxRef}
    {f : PaymentRec → PaymentRec} {q : PaymentRec}
    (hq : q ∈ ps) (hne : ¬ q.txRef = r) : q ∈ updatePayment ps r f := by
  unfold updatePayment
  have h : (if q.txRef = r then f q else q) = q := if_neg hne
  exact h ▸ List.mem_map_of_mem _ hq

/-- Payment initiation never rewrites or deletes a pre-existing `Payment`
row: every row of the old table is present, unchanged, afterwards. -/
theorem initiate_preserves_payments (s : AppState) (req : InitiateReq)
    (fresh newPid : String) (gwi : GatewayInitResult)
    (q : PaymentRec) (hq : q ∈ s.payments) :
    q ∈ (initiate_chapa_payment s req fresh newPid gwi).state.payments := by
  unfold initiate_chapa_payment
  by_cases hauth : req.authenticated
  · rw [if_neg (by simpa using hauth)]
    rcases hbid : req.bookingId with _ | bid
    · exact hq
    · rcases hamt : req.amount with _ | amt
      · exact hq
      · dsimp only
        by_cases hz : bid = "" ∨ amt = 0
        · rw [if_pos hz]; exact hq
        · rw [if_neg hz]
          rcases hfb : findOwnedBooking s.bookings bid req.userId with _ | b
          · exact hq
          · dsimp only
            by_cases hmm : amt ≠ b.totalPrice
            · rw [if_pos hmm]; exact hq
            · rw [if_neg hmm]
              by_cases hdup : ∃ p ∈ s.payments, p.txRef = (⟨b.bookingId, fresh⟩ : TxRef)
              · rw [if_pos hdup]; exact hq
              · rw [if_neg hdup]
                have hne : ¬ q.txRef = (⟨b.bookingId, fresh⟩ : TxRef) := by
                  intro h
                  exact hdup ⟨q, hq, h⟩
                have hq' : q ∈ s.payments ++
                    [(⟨newPid, b.bookingId, amt, ⟨b.bookingId, fresh⟩, .pending,
                      "Initiation pending"⟩ : PaymentRec)] :=
                  List.mem_append_left _ hq
                cases gwi with
                | transportError e => exact mem_updatePayment_of_ne hq' hne
                | ok body =>
                  dsimp only
                  split
                  · exact mem_updatePayment_of_ne hq' hne
                  · exact mem_updatePayment_of_ne hq' hne
  · rw [if_pos (by simpa using hauth)]
    exact hq

/-- A verification whose looked-up payment is already terminal
short-circuits: status-page redirect, unchanged store, no events. -/
theorem verify_terminal_eq (s : AppState) (ref : TxRef) (p : PaymentRec)
    (gw : GatewayVerifyResult) (eqOk : Bool)
    (hfind : findPayment s.payments ref = some p)
    (hterm : p.status = .completed ∨ p.status = .failed) :
    verify_chapa_payment s ref gw eqOk =
      ⟨.redirect (statusPageUrl ref p.status), s, []⟩ := by
  unfold verify_chapa_payment
  rw [hfind]
  dsimp only
  rw [if_pos hterm]

/-- The shape of a verification outcome on the nested-success branch:
payment written `COMPLETED` with the inner status text `"success"`, booking
confirmed when not already, then either the success redirect plus the
enqueue (when the enqueue call succeeds) or the internal-error redirect
(when it raises). -/
theorem verify_success_eq (s : AppState) (ref : TxRef) (p : PaymentRec)
    (b : BookingRec) (body : VerifyBody) (eqOk : Bool)
    (hfind : findPayment s.payments ref = some p)
    (hnt : ¬ (p.status = .completed ∨ p.status = .failed))
    (hos : body.status = some "success") (his : body.data.status = some "success")
    (hb : findBooking s.bookings p.bookingId = some b) :
    verify_chapa_payment s ref (.ok body) eqOk =
      (if eqOk then
        (⟨.redirect "/payment-success/", successState s ref b,
          [.gatewayVerify ref,
           .enqueuePaymentEmail p.paymentId b.userEmail p.amount b.bookingId]⟩ : Outcome)
       else
        ⟨.redirect (internalErrorUrl ref), successState s ref b,
         [.gatewayVerify ref]⟩) := by
  unfold verify_chapa_payment
  rw [hfind]
  dsimp only
  rw [if_neg hnt, if_pos ⟨hos, his⟩, his]
  dsimp only [Option.getD]
  rw [hb]
  dsimp only
  unfold successState confirmB completeP
  by_cases hc : b.status = .confirmed <;> cases eqOk <;> simp [hc]

/-- Claim C1: for every `Payment` whose status is `COMPLETED` or `FAILED`,
any later `verify_chapa_payment` call for its transaction reference leaves
the whole store unchanged (the terminal guard short-circuits), and any
`initiate_chapa_payment` call leaves the row present and unchanged — so
terminal statuses are absorbing under both orchestrator operations. -/
theorem C1_terminal_states_absorbing
    (s : AppState) (ref : TxRef) (gw : GatewayVerifyResult) (eqOk : Bool)
    (req : InitiateReq) (fresh newPid : String) (gwi : GatewayInitResult)
    (p : PaymentRec)
    (hfind : findPayment s.payments ref = some p)
    (hterm : p.status = .completed ∨ p.status = .failed) :
    (verify_chapa_payment s ref gw eqOk).state = s ∧
    ∀ q ∈ s.payments, (q.status = .completed ∨ q.status = .failed) →
      q ∈ (initiate_chapa_payment s req fresh newPid gwi).state.payments := by
  constructor
  · rw [verify_terminal_eq s ref p gw eqOk hfind hterm]
  · intro q hq _
    exact initiate_preserves_payments s req fresh newPid gwi q hq

/-- Witness for C1 at a concrete completed payment. -/
theorem C1_terminal_states_absorbing_witness :
    (verify_chapa_payment sDone refA gwDeclined true).state = sDone ∧
    ∀ q ∈ sDone.payments, (q.status = .completed ∨ q.status = .failed) →
      q ∈ (initiate_chapa_payment sDone reqA "n2" "pay2" gwInitOk).state.payments :=
  C1_terminal_states_absorbing sDone refA gwDeclined true reqA "n2" "pay2" gwInitOk
    payDone (by decide) (by decide)

/-- Counterexample to claim C2 as stated: with a pending payment verified
twice under nested gateway success, the second response (a redirect to the
status page) is not identical to the first (the success redirect). -/
theorem C2_second_response_differs :
    ¬ ((verify_chapa_payment
          (verify_chapa_payment sA refA gwSuccess true).state refA gwSuccess true).resp
        = (verify_chapa_payment sA refA gwSuccess true).resp) := by
  decide

/-- Claim C2 as amended: if the first verification of a pending payment
transitions it to `COMPLETED`, a second verification for the same reference
short-circuits at the terminal guard: it reports the completed status (as a
redirect to the status page rather than the first call's success redirect),
changes no state, makes no second gateway verify call, and across both
calls the confirmation notification job is enqueued exactly once. -/
theorem C2_repeat_verification_short_circuits
    (s : AppState) (ref : TxRef) (gw2 : GatewayVerifyResult) (eqOk2 : Bool)
    (p : PaymentRec) (b : BookingRec) (body : VerifyBody)
    (hfind : findPayment s.payments ref = some p)
    (hp : p.status = .pending)
    (hos : body.status = some "success") (his : body.data.status = some "success")
    (hb : findBooking s.bookings p.bookingId = some b) :
    (verify_chapa_payment
        (verify_chapa_payment s ref (.ok body) true).state ref gw2 eqOk2).resp
      = .redirect (statusPageUrl ref .completed) ∧
    (verify_chapa_payment
        (verify_chapa_payment s ref (.ok body) true).state ref gw2 eqOk2).state
      = (verify_chapa_payment s ref (.ok body) true).state ∧
    (verify_chapa_payment
        (verify_chapa_payment s ref (.ok body) true).state ref gw2 eqOk2).events
      = [] ∧
    ((verify_chapa_payment s ref (.ok body) true).events ++
        (verify_chapa_payment
          (verify_chapa_payment s ref (.ok body) true).state ref gw2 eqOk2).events).filter
        Event.isEnqueue
      = [.enqueuePaymentEmail p.paymentId b.userEmail p.amount b.bookingId] := by
  have hnt : ¬ (p.status = .completed ∨ p.status = .failed) := by
    simp [hp]
  have h1 := verify_success_eq s ref p b body true hfind hnt hos his hb
  rw [if_pos rfl] at h1
  have hfp2 : findPayment (verify_chapa_payment s ref (.ok body) true).state.payments ref
      = some (completeP p) := by
    rw [h1]
    unfold successState
    by_cases hc : b.status = .confirmed <;>
      simp [hc, findPayment_updatePayment s.payments ref completeP (fun q => rfl), hfind]
  have h2 := verify_terminal_eq (verify_chapa_payment s ref (.ok body) true).state
    ref (completeP p) gw2 eqOk2 hfp2 (Or.inl rfl)
  refine ⟨by rw [h2]; rfl, by rw [h2], by rw [h2], ?_⟩
  rw [h2, h1]
  simp [Event.isEnqueue]

/-- Witness for C2's amended theorem at the concrete pending fixture. -/
theorem C2_repeat_verification_short_circuits_witness :
    (verify_chapa_payment
        (verify_chapa_payment sA refA (.ok ⟨some "success", some "Payment details",
          ⟨some "success", none⟩⟩) true).state refA gwDeclined false).resp
      = .redirect (statusPageUrl refA .completed) ∧
    (verify_chapa_payment
        (verify_chapa_payment sA refA (.ok ⟨some "success", some "Payment details",
          ⟨some "success", none⟩⟩) true).state refA gwDeclined false).state
      = (verify_chapa_payment sA refA (.ok ⟨some "success", some "Payment details",
          ⟨some "success", none⟩⟩) true).state ∧
    (verify_chapa_payment
        (verify_chapa_payment sA refA (.ok ⟨some "success", some "Payment details",
          ⟨some "success", none⟩⟩) true).state refA gwDeclined false).events
      = [] ∧
    ((verify_chapa_payment sA refA (.ok ⟨some "success", some "Payment details",
          ⟨some "success", none⟩⟩) true).events ++
        (verify_chapa_payment
          (verify_chapa_payment sA refA (.ok ⟨some "success", some "Payment details",
            ⟨some "success", none⟩⟩) true).state refA gwDeclined false).events).filter
        Event.isEnqueue
      = [.enqueuePaymentEmail "pay1" "guest@example.com" 800 "b1"] :=
  C2_repeat_verification_short_circuits sA refA gwDeclined false payA bookingA
    ⟨some "success", some "Payment details", ⟨some "success", none⟩⟩
    (by decide) (by decide) (by decide) (by decide) (by decide)

theorem findPayment_eq_key {ps : List PaymentRec} {r : TxRef} {p : PaymentRec}
    (h : findPayment ps r = some p) : p.txRef = r := by
  induction ps with
  | nil => exact absurd h (by simp [findPayment])
  | cons q qs ih =>
    by_cases hq : q.txRef = r
    · rw [findPayment, if_pos hq] at h
      cases h
      exact hq
    · rw [findPayment, if_neg hq] at h
      exact ih h

theorem findBooking_eq_key {bs : List BookingRec} {i : String} {b : BookingRec}
    (h : findBooking bs i = some b) : b.bookingId = i := by
  induction bs with
  | nil => exact absurd h (by simp [findBooking])
  | cons c cs ih =>
    by_cases hc : c.bookingId = i
    · rw [findBooking, if_pos hc] at h
      cases h
      exact hc
    · rw [findBooking, if_neg hc] at h
      exact ih h

theorem confirmB_of_confirmed {b : BookingRec} (h : b.status = .confirmed) :
    confirmB b = b := by
  cases b
  simp only [confirmB]
  simp_all

/-- Claim C3: verifying a `PENDING` payment against a gateway body whose
outer status and inner per-transaction status are both `"success"` (with
the enqueue call succeeding) writes the payment `COMPLETED` storing the
gateway's inner status text, leaves the owning booking `CONFIRMED` —
updating it only when it was not already confirmed — and enqueues exactly
one confirmation job carrying the payment id, guest email, amount, and
booking reference. -/
theorem C3_verified_success_effects
    (s : AppState) (ref : TxRef) (p : PaymentRec) (b : BookingRec) (body : VerifyBody)
    (hfind : findPayment s.payments ref = some p)
    (hp : p.status = .pending)
    (hos : body.status = some "success") (his : body.data.status = some "success")
    (hb : findBooking s.bookings p.bookingId = some b) :
    findPayment (verify_chapa_payment s ref (.ok body) true).state.payments ref
      = some { p with status := .completed, statusText := "success" } ∧
    findBooking (verify_chapa_payment s ref (.ok body) true).state.bookings p.bookingId
      = some (confirmB b) ∧
    (b.status = .confirmed →
      (verify_chapa_payment s ref (.ok body) true).state.bookings = s.bookings) ∧
    (verify_chapa_payment s ref (.ok body) true).events
      = [.gatewayVerify ref,
         .enqueuePaymentEmail p.paymentId b.userEmail p.amount b.bookingId] := by
  have hnt : ¬ (p.status = .completed ∨ p.status = .failed) := by
    simp [hp]
  have h1 := verify_success_eq s ref p b body true hfind hnt hos his hb
  rw [if_pos rfl] at h1
  have hk : b.bookingId = p.bookingId := findBooking_eq_key hb
  refine ⟨?_, ?_, ?_, by rw [h1]⟩
  · rw [h1]
    unfold successState
    by_cases hc : b.status = .confirmed <;>
      simp [hc, findPayment_updatePayment s.payments ref completeP (fun q => rfl), hfind,
        completeP]
  · rw [h1]
    unfold successState
    by_cases hc : b.status = .confirmed
    · simp only [hc, ne_eq, not_true_eq_false, if_false]
      rw [hb, confirmB_of_confirmed hc]
    · simp only [hc, ne_eq, not_false_eq_true, if_true]
      rw [hk]
      rw [findBooking_updateBooking s.bookings p.bookingId confirmB (fun c => rfl), hb]
      rfl
  · intro hc
    rw [h1]
    unfold successState
    simp [hc]

/-- Witness for C3 at the concrete pending fixture. -/
theorem C3_verified_success_effects_witness :
    findPayment (verify_chapa_payment sA refA (.ok ⟨some "success", some "Payment details",
        ⟨some "success", none⟩⟩) true).state.payments refA
      = some { payA with status := .completed, statusText := "success" } ∧
    findBooking (verify_chapa_payment sA refA (.ok ⟨some "success", some "Payment details",
        ⟨some "success", none⟩⟩) true).state.bookings payA.bookingId
      = some (confirmB bookingA) ∧
    (bookingA.status = .confirmed →
      (verify_chapa_payment sA refA (.ok ⟨some "success", some "Payment details",
        ⟨some "success", none⟩⟩) true).state.bookings = sA.bookings) ∧
    (verify_chapa_payment sA refA (.ok ⟨some "success", some "Payment details",
        ⟨some "success", none⟩⟩) true).events
      = [.gatewayVerify refA,
         .enqueuePaymentEmail payA.paymentId bookingA.userEmail payA.amount
           bookingA.bookingId] :=
  C3_verified_success_effects sA refA payA bookingA
    ⟨some "success", some "Payment details", ⟨some "success", none⟩⟩
    (by decide) (by decide) (by decide) (by decide) (by decide)

/-- Claim C4: an authenticated initiation for an existing, owned booking
whose amount differs from the booking's total price fails with a 400
validation error and creates no `Payment` row (the whole store and event
trace are untouched); when the amount is a present non-zero value the error
is specifically the amount-mismatch body.  (A zero amount trips the
source's earlier Python-truthiness `required` check instead, still a 400
with no row created.) -/
theorem C4_amount_mismatch_rejected
    (s : AppState) (req : InitiateReq) (fresh newPid : String)
    (gwi : GatewayInitResult) (bid : String) (q : ℚ) (b : BookingRec)
    (hauth : req.authenticated = true)
    (hbid : req.bookingId = some bid)
    (hamt : req.amount = some q)
    (hfb : findOwnedBooking s.bookings bid req.userId = some b)
    (hne : q ≠ b.totalPrice) :
    (initiate_chapa_payment s req fresh newPid gwi).state = s ∧
    (initiate_chapa_payment s req fresh newPid gwi).events = [] ∧
    (∃ m, (initiate_chapa_payment s req fresh newPid gwi).resp = .jsonErr 400 m) ∧
    (bid ≠ "" → q ≠ 0 →
      (initiate_chapa_payment s req fresh newPid gwi).resp
        = .jsonErr 400 (.amountMismatch q b.totalPrice)) := by
  unfold initiate_chapa_payment
  rw [if_neg (by simp [hauth]), hbid, hamt]
  dsimp only
  by_cases hz : bid = "" ∨ q = 0
  · rw [if_pos hz]
    exact ⟨rfl, rfl, ⟨.bookingAndAmountRequired, rfl⟩,
      fun h1 h2 => absurd hz (not_or.mpr ⟨h1, h2⟩)⟩
  · rw [if_neg hz, hfb]
    dsimp only
    rw [if_pos hne]
    exact ⟨rfl, rfl, ⟨.amountMismatch q b.totalPrice, rfl⟩, fun h1 h2 => rfl⟩

/-- Witness for C4: initiating with 799 against the 800 booking. -/
theorem C4_amount_mismatch_rejected_witness :
    (initiate_chapa_payment sA ⟨true, "u1", some "b1", some 799⟩ "n9" "pay9" gwInitOk).state
      = sA ∧
    (initiate_chapa_payment sA ⟨true, "u1", some "b1", some 799⟩ "n9" "pay9" gwInitOk).events
      = [] ∧
    (∃ m, (initiate_chapa_payment sA ⟨true, "u1", some "b1", some 799⟩ "n9" "pay9"
        gwInitOk).resp = .jsonErr 400 m) ∧
    ("b1" ≠ "" → (799 : ℚ) ≠ 0 →
      (initiate_chapa_payment sA ⟨true, "u1", some "b1", some 799⟩ "n9" "pay9" gwInitOk).resp
        = .jsonErr 400 (.amountMismatch 799 bookingA.totalPrice)) :=
  C4_amount_mismatch_rejected sA ⟨true, "u1", some "b1", some 799⟩ "n9" "pay9" gwInitOk
    "b1" 799 bookingA rfl rfl rfl (by decide) (by decide)

/-- Claim C5: a successful initiation builds its transaction reference from
the booking id hex plus the freshly drawn uuid hex; under the uuid
freshness assumption (the drawn hex differs from the nonce of every stored
reference) the new reference collides with no existing payment's reference;
the `Payment` row is created in `PENDING` state strictly before the gateway
initialize call (the event trace lists creation first); and after the
gateway acknowledges, the row still carries the reference in `PENDING`
state. -/
theorem C5_fresh_reference_unique_and_pending_first
    (s : AppState) (req : InitiateReq) (fresh newPid : String) (body : InitBody)
    (bid : String) (q : ℚ) (b : BookingRec)
    (hauth : req.authenticated = true)
    (hbid : req.bookingId = some bid)
    (hamt : req.amount = some q)
    (hz : ¬ (bid = "" ∨ q = 0))
    (hfb : findOwnedBooking s.bookings bid req.userId = some b)
    (heq : q = b.totalPrice)
    (hfresh : ∀ p ∈ s.payments, p.txRef.nonce ≠ fresh)
    (hok : body.status = some "success") :
    (∀ p ∈ s.payments, p.txRef ≠ (⟨b.bookingId, fresh⟩ : TxRef)) ∧
    (initiate_chapa_payment s req fresh newPid (.ok body)).events
      = [.paymentCreated ⟨b.bookingId, fresh⟩ .pending,
         .gatewayInitiate ⟨b.bookingId, fresh⟩] ∧
    (initiate_chapa_payment s req fresh newPid (.ok body)).resp
      = .initiateOk body.data.checkoutUrl (renderRef ⟨b.bookingId, fresh⟩) ∧
    (∃ pnew ∈ (initiate_chapa_payment s req fresh newPid (.ok body)).state.payments,
      pnew.txRef = (⟨b.bookingId, fresh⟩ : TxRef) ∧ pnew.status = .pending ∧
        pnew.bookingId = b.bookingId ∧ pnew.amount = q) := by
  have huniq : ∀ p ∈ s.payments, p.txRef ≠ (⟨b.bookingId, fresh⟩ : TxRef) := by
    intro p hp h
    exact hfresh p hp (congrArg TxRef.nonce h)
  have hdup : ¬ ∃ p ∈ s.payments, p.txRef = (⟨b.bookingId, fresh⟩ : TxRef) := by
    rintro ⟨p, hp, h⟩
    exact huniq p hp h
  refine ⟨huniq, ?_⟩
  unfold initiate_chapa_payment
  rw [if_neg (by simp [hauth]), hbid, hamt]
  dsimp only
  rw [if_neg hz, hfb]
  dsimp only
  rw [if_neg (by simp [heq]), if_neg hdup]
  rw [if_pos hok]
  refine ⟨rfl, rfl, ?_⟩
  refine ⟨{ (⟨newPid, b.bookingId, q, ⟨b.bookingId, fresh⟩, .pending,
      "Initiation pending"⟩ : PaymentRec) with
        statusText :=
          body.message.getD "Payment initiation successful, awaiting completion." },
    ?_, rfl, rfl, rfl, rfl⟩
  unfold updatePayment
  have hmem : (⟨newPid, b.bookingId, q, ⟨b.bookingId, fresh⟩, .pending,
      "Initiation pending"⟩ : PaymentRec) ∈ s.payments ++
        [(⟨newPid, b.bookingId, q, ⟨b.bookingId, fresh⟩, .pending,
          "Initiation pending"⟩ : PaymentRec)] :=
    List.mem_append_right _ (List.mem_singleton_self _)
  refine List.mem_map.mpr ⟨_, hmem, ?_⟩
  simp

/-- Witness for C5 at the concrete fixture with fresh nonce `n2`. -/
theorem C5_fresh_reference_unique_and_pending_first_witness :
    (∀ p ∈ sA.payments, p.txRef ≠ (⟨"b1", "n2"⟩ : TxRef)) ∧
    (initiate_chapa_payment sA reqA "n2" "pay2"
        (.ok ⟨some "success", some "Hosted Link", ⟨"https://checkout.chapa.co/xyz"⟩⟩)).events
      = [.paymentCreated ⟨"b1", "n2"⟩ .pending, .gatewayInitiate ⟨"b1", "n2"⟩] ∧
    (initiate_chapa_payment sA reqA "n2" "pay2"
        (.ok ⟨some "success", some "Hosted Link", ⟨"https://checkout.chapa.co/xyz"⟩⟩)).resp
      = .initiateOk "https://checkout.chapa.co/xyz" (renderRef ⟨"b1", "n2"⟩) ∧
    (∃ pnew ∈ (initiate_chapa_payment sA reqA "n2" "pay2"
        (.ok ⟨some "success", some "Hosted Link",
          ⟨"https://checkout.chapa.co/xyz"⟩⟩)).state.payments,
      pnew.txRef = (⟨"b1", "n2"⟩ : TxRef) ∧ pnew.status = .pending ∧
        pnew.bookingId = "b1" ∧ pnew.amount = 800) :=
  C5_fresh_reference_unique_and_pending_first sA reqA "n2" "pay2"
    ⟨some "success", some "Hosted Link", ⟨"https://checkout.chapa.co/xyz"⟩⟩
    "b1" 800 bookingA rfl rfl rfl (by decide) (by decide) (by decide)
    (by decide) (by decide)

/-- Claim C6: verifying a `PENDING` payment against a gateway body that is
not a nested success writes the payment `FAILED` with the diagnostic text
chosen by preferring `data['message']`, then the top-level `message`, then
the generic fallback; the bookings table is untouched, no notification job
is enqueued, and the response is a redirect to the failure page carrying
that text. -/
theorem C6_verified_failure_effects
    (s : AppState) (ref : TxRef) (p : PaymentRec) (body : VerifyBody) (eqOk : Bool)
    (hfind : findPayment s.payments ref = some p)
    (hp : p.status = .pending)
    (hfail : ¬ (body.status = some "success" ∧ body.data.status = some "success")) :
    findPayment (verify_chapa_payment s ref (.ok body) eqOk).state.payments ref
      = some { p with status := .failed, statusText := failText body } ∧
    (verify_chapa_payment s ref (.ok body) eqOk).state.bookings = s.bookings ∧
    (verify_chapa_payment s ref (.ok body) eqOk).events = [.gatewayVerify ref] ∧
    (verify_chapa_payment s ref (.ok body) eqOk).resp
      = .redirect (failTextUrl ref (failText body)) := by
  have hnt : ¬ (p.status = .completed ∨ p.status = .failed) := by
    simp [hp]
  unfold verify_chapa_payment
  rw [hfind]
  dsimp only
  rw [if_neg hnt]
  rw [if_neg hfail]
  refine ⟨?_, rfl, rfl, rfl⟩
  simp [findPayment_updatePayment, hfind, failText]

/-- Witness for C6 at the concrete declined fixture. -/
theorem C6_verified_failure_effects_witness :
    findPayment (verify_chapa_payment sA refA (.ok ⟨some "success", some "Payment details",
        ⟨some "failed", some "insufficient funds"⟩⟩) true).state.payments refA
      = some { payA with status := .failed, statusText := "insufficient funds" } ∧
    (verify_chapa_payment sA refA (.ok ⟨some "success", some "Payment details",
        ⟨some "failed", some "insufficient funds"⟩⟩) true).state.bookings = sA.bookings ∧
    (verify_chapa_payment sA refA (.ok ⟨some "success", some "Payment details",
        ⟨some "failed", some "insufficient funds"⟩⟩) true).events = [.gatewayVerify refA] ∧
    (verify_chapa_payment sA refA (.ok ⟨some "success", some "Payment details",
        ⟨some "failed", some "insufficient funds"⟩⟩) true).resp
      = .redirect (failTextUrl refA "insufficient funds") :=
  C6_verified_failure_effects sA refA payA
    ⟨some "success", some "Payment details", ⟨some "failed", some "insufficient funds"⟩⟩
    true (by decide) (by decide) (by decide)

theorem findPayment_append_fresh {l : List PaymentRec} {x : PaymentRec} {r : TxRef}
    (hl : ∀ p ∈ l, p.txRef ≠ r) (hx : x.txRef = r) :
    findPayment (l ++ [x]) r = some x := by
  induction l with
  | nil => simp [findPayment, hx]
  | cons p ps ih =>
    rw [List.cons_append, findPayment, if_neg (hl p (List.mem_cons_self p ps))]
    exact ih fun q hq => hl q (List.mem_cons_of_mem p hq)

/-- Claim C7: when the gateway rejects a request or the transport fails,
the payment is written `FAILED` with an error detail only from a still
`PENDING` state (the verification handler's overwrite is guarded by a
`status == PENDING` check, so an already-advanced payment is never
overridden), and the caller receives the corresponding failure response:
HTTP 500 for initiation failures, HTTP 400 for an explicit initiation
rejection, and the api-error failure redirect for verification transport
failures. -/
theorem C7_gateway_failure_guarded_writes
    (s : AppState) (ref : TxRef) (p : PaymentRec) (e : String) (eqOk : Bool)
    (req : InitiateReq) (fresh newPid bid : String) (q : ℚ) (b : BookingRec)
    (ibody : InitBody) :
    (findPayment s.payments ref = some p → p.status = .pending →
      findPayment (verify_chapa_payment s ref (.transportError e) eqOk).state.payments ref
        = some { p with status := .failed, statusText := "API Verification Error: " ++ e } ∧
      (verify_chapa_payment s ref (.transportError e) eqOk).resp
        = .redirect (apiErrorUrl ref)) ∧
    (findPayment s.payments ref = some p →
      ¬ p.status = .pending → ¬ (p.status = .completed ∨ p.status = .failed) →
      (verify_chapa_payment s ref (.transportError e) eqOk).state = s ∧
      (verify_chapa_payment s ref (.transportError e) eqOk).resp
        = .redirect (apiErrorUrl ref)) ∧
    (req.authenticated = true → req.bookingId = some bid → req.amount = some q →
      ¬ (bid = "" ∨ q = 0) →
      findOwnedBooking s.bookings bid req.userId = some b →
      q = b.totalPrice →
      (∀ r ∈ s.payments, r.txRef ≠ (⟨b.bookingId, fresh⟩ : TxRef)) →
      findPayment (initiate_chapa_payment s req fresh newPid
          (.transportError e)).state.payments ⟨b.bookingId, fresh⟩
        = some ⟨newPid, b.bookingId, q, ⟨b.bookingId, fresh⟩, .failed,
            "API Request Error: " ++ e⟩ ∧
      (initiate_chapa_payment s req fresh newPid (.transportError e)).resp
        = .jsonErr 500 .couldNotConnect) ∧
    (req.authenticated = true → req.bookingId = some bid → req.amount = some q →
      ¬ (bid = "" ∨ q = 0) →
      findOwnedBooking s.bookings bid req.userId = some b →
      q = b.totalPrice →
      (∀ r ∈ s.payments, r.txRef ≠ (⟨b.bookingId, fresh⟩ : TxRef)) →
      ¬ ibody.status = some "success" →
      findPayment (initiate_chapa_payment s req fresh newPid
          (.ok ibody)).state.payments ⟨b.bookingId, fresh⟩
        = some ⟨newPid, b.bookingId, q, ⟨b.bookingId, fresh⟩, .failed,
            ibody.message.getD "Failed to initiate payment with Chapa."⟩ ∧
      (initiate_chapa_payment s req fresh newPid (.ok ibody)).resp
        = .jsonErr 400
            (.chapaText (ibody.message.getD "Failed to initiate payment with Chapa."))) := by
  refine ⟨?_, ?_, ?_, ?_⟩
  · intro hfind hp
    have hnt : ¬ (p.status = .completed ∨ p.status = .failed) := by
      simp [hp]
    unfold verify_chapa_payment
    rw [hfind]
    dsimp only
    rw [if_neg hnt]
    rw [if_pos hp]
    refine ⟨?_, rfl⟩
    simp [findPayment_updatePayment, hfind]
  · intro hfind hp hnt
    unfold verify_chapa_payment
    rw [hfind]
    dsimp only
    rw [if_neg hnt]
    rw [if_neg hp]
    exact ⟨rfl, rfl⟩
  · intro hauth hbid hamt hz hfb heq huniq
    have hdup : ¬ ∃ r ∈ s.payments, r.txRef = (⟨b.bookingId, fresh⟩ : TxRef) := by
      rintro ⟨r, hr, h⟩
      exact huniq r hr h
    have happ : findPayment (s.payments ++
        [(⟨newPid, b.bookingId, q, ⟨b.bookingId, fresh⟩, .pending,
          "Initiation pending"⟩ : PaymentRec)]) ⟨b.bookingId, fresh⟩
        = some ⟨newPid, b.bookingId, q, ⟨b.bookingId, fresh⟩, .pending,
            "Initiation pending"⟩ :=
      findPayment_append_fresh huniq rfl
    unfold initiate_chapa_payment
    rw [if_neg (by simp [hauth]), hbid, hamt]
    dsimp only
    rw [if_neg hz, hfb]
    dsimp only
    rw [if_neg (by simp [heq]), if_neg hdup]
    refine ⟨?_, rfl⟩
    simp [findPayment_updatePayment, happ]
  · intro hauth hbid hamt hz hfb heq huniq hko
    have hdup : ¬ ∃ r ∈ s.payments, r.txRef = (⟨b.bookingId, fresh⟩ : TxRef) := by
      rintro ⟨r, hr, h⟩
      exact huniq r hr h
    have happ : findPayment (s.payments ++
        [(⟨newPid, b.bookingId, q, ⟨b.bookingId, fresh⟩, .pending,
          "Initiation pending"⟩ : PaymentRec)]) ⟨b.bookingId, fresh⟩
        = some ⟨newPid, b.bookingId, q, ⟨b.bookingId, fresh⟩, .pending,
            "Initiation pending"⟩ :=
      findPayment_append_fresh huniq rfl
    unfold initiate_chapa_payment
    rw [if_neg (by simp [hauth]), hbid, hamt]
    dsimp only
    rw [if_neg hz, hfb]
    dsimp only
    rw [if_neg (by simp [heq]), if_neg hdup]
    rw [if_neg hko]
    refine ⟨?_, rfl⟩
    simp [findPayment_updatePayment, happ]

/-- Witness for C7: all four scenarios at concrete inputs. -/
theorem C7_gateway_failure_guarded_writes_witness :
    (findPayment (verify_chapa_payment sA refA (.transportError "timeout")
          true).state.payments refA
        = some { payA with status := .failed, statusText := "API Verification Error: " ++ "timeout" } ∧
      (verify_chapa_payment sA refA (.transportError "timeout") true).resp
        = .redirect (apiErrorUrl refA)) ∧
    ((verify_chapa_payment sCan refA (.transportError "timeout") true).state = sCan ∧
      (verify_chapa_payment sCan refA (.transportError "timeout") true).resp
        = .redirect (apiErrorUrl refA)) ∧
    (findPayment (initiate_chapa_payment sA reqA "n2" "pay2"
          (.transportError "timeout")).state.payments ⟨"b1", "n2"⟩
        = some ⟨"pay2", "b1", 800, ⟨"b1", "n2"⟩, .failed,
            "API Request Error: " ++ "timeout"⟩ ∧
      (initiate_chapa_payment sA reqA "n2" "pay2" (.transportError "timeout")).resp
        = .jsonErr 500 .couldNotConnect) ∧
    (findPayment (initiate_chapa_payment sA reqA "n2" "pay2"
          (.ok gwInitBadBody)).state.payments ⟨"b1", "n2"⟩
        = some ⟨"pay2", "b1", 800, ⟨"b1", "n2"⟩, .failed,
            gwInitBadBody.message.getD "Failed to initiate payment with Chapa."⟩ ∧
      (initiate_chapa_payment sA reqA "n2" "pay2" (.ok gwInitBadBody)).resp
        = .jsonErr 400
            (.chapaText (gwInitBadBody.message.getD
              "Failed to initiate payment with Chapa."))) :=
  ⟨(C7_gateway_failure_guarded_writes sA refA payA "timeout" true reqA "n2" "pay2"
      "b1" 800 bookingA gwInitBadBody).1 (by decide) (by decide),
   (C7_gateway_failure_guarded_writes sCan refA payCan "timeout" true reqA "n2" "pay2"
      "b1" 800 bookingA gwInitBadBody).2.1 (by decide) (by decide) (by decide),
   (C7_gateway_failure_guarded_writes sA refA payA "timeout" true reqA "n2" "pay2"
      "b1" 800 bookingA gwInitBadBody).2.2.1 (by decide) (by decide) (by decide)
      (by decide) (by decide) (by decide) (by decide),
   (C7_gateway_failure_guarded_writes sA refA payA "timeout" true reqA "n2" "pay2"
      "b1" 800 bookingA gwInitBadBody).2.2.2 (by decide) (by decide) (by decide)
      (by decide) (by decide) (by decide) (by decide) (by decide)⟩

/-- Claim C8 concerns a verification whose transaction reference matches no
`Payment` row.  In the source, `get_object_or_404` raises `Http404`, which
is not a `Payment.DoesNotExist` and so falls through to the final
`except Exception` handler: the caller gets a 302 redirect to the
internal-error failure page, not the documented 404 JSON response (that
handler is unreachable), though no state is mutated and no event occurs.
This theorem evaluates the embedded view at such an input. -/
theorem C8_unknown_reference_redirects :
    verify_chapa_payment ⟨[], []⟩ refA gwSuccess true
      = ⟨.redirect (internalErrorUrl refA), ⟨[], []⟩, []⟩ ∧
    ∀ c m, verify_chapa_payment ⟨[], []⟩ refA gwSuccess true ≠
      ⟨.jsonErr c m, ⟨[], []⟩, []⟩ := by
  refine ⟨by decide, ?_⟩
  intro c m h
  have h0 : verify_chapa_payment ⟨[], []⟩ refA gwSuccess true
      = ⟨.redirect (internalErrorUrl refA), ⟨[], []⟩, []⟩ := by decide
  rw [h0] at h
  have h2 : Resp.redirect (internalErrorUrl refA) = Resp.jsonErr c m :=
    congrArg Outcome.resp h
  exact Resp.noConfusion h2

/-- Claim C9 concerns a failure of the confirmation-email enqueue after a
successful verification.  In the source the raised exception is caught by
the broad `except Exception` handler: the already-`COMPLETED` payment and
`CONFIRMED` booking are indeed left untouched (the handler's `PENDING`
guard fails), but the caller is redirected to the internal-error failure
page instead of `/payment-success/` — the response is not the same
successful verification response, contradicting the claim.  This theorem
evaluates both enqueue outcomes at the concrete pending fixture. -/
theorem C9_enqueue_failure_changes_response :
    (verify_chapa_payment sA refA gwSuccess false).state
      = (verify_chapa_payment sA refA gwSuccess true).state ∧
    findPayment (verify_chapa_payment sA refA gwSuccess false).state.payments refA
      = some { payA with status := .completed, statusText := "success" } ∧
    findBooking (verify_chapa_payment sA refA gwSuccess false).state.bookings "b1"
      = some { bookingA with status := .confirmed } ∧
    (verify_chapa_payment sA refA gwSuccess true).resp
      = .redirect "/payment-success/" ∧
    (verify_chapa_payment sA refA gwSuccess false).resp
      = .redirect (internalErrorUrl refA) ∧
    ¬ (verify_chapa_payment sA refA gwSuccess false).resp
      = (verify_chapa_payment sA refA gwSuccess true).resp := by
  decide

/-- Claim C10: a payment stored `CANCELLED` or `REVERSED` is not caught by
the terminal guard (which tests only `COMPLETED`/`FAILED`): every
verification for its reference reaches the gateway verify call, a nested
success overwrites it to `COMPLETED`, any other body overwrites it to
`FAILED`, while a transport failure leaves it untouched because the
error-path guard tests `PENDING` only. -/
theorem C10_canceled_reversed_reverified
    (s : AppState) (ref : TxRef) (p : PaymentRec) (eqOk : Bool) (e : String)
    (body : VerifyBody) (b : BookingRec)
    (hfind : findPayment s.payments ref = some p)
    (hst : p.status = .canceled ∨ p.status = .reversed) :
    (∀ gw, Event.gatewayVerify ref ∈ (verify_chapa_payment s ref gw eqOk).events) ∧
    (body.status = some "success" → body.data.status = some "success" →
      findBooking s.bookings p.bookingId = some b →
      findPayment (verify_chapa_payment s ref (.ok body) eqOk).state.payments ref
        = some { p with status := .completed, statusText := "success" }) ∧
    (¬ (body.status = some "success" ∧ body.data.status = some "success") →
      findPayment (verify_chapa_payment s ref (.ok body) eqOk).state.payments ref
        = some { p with status := .failed, statusText := failText body }) ∧
    ((verify_chapa_payment s ref (.transportError e) eqOk).state = s ∧
      (verify_chapa_payment s ref (.transportError e) eqOk).resp
        = .redirect (apiErrorUrl ref)) := by
  have hnt : ¬ (p.status = .completed ∨ p.status = .failed) := by
    rcases hst with h | h <;> simp [h]
  have hnp : ¬ p.status = .pending := by
    rcases hst with h | h <;> simp [h]
  refine ⟨?_, ?_, ?_, ?_⟩
  · intro gw
    cases gw with
    | transportError e2 =>
      unfold verify_chapa_payment
      rw [hfind]
      dsimp only
      rw [if_neg hnt]
      rw [if_neg hnp]
      exact List.mem_singleton_self _
    | ok body2 =>
      unfold verify_chapa_payment
      rw [hfind]
      dsimp only
      rw [if_neg hnt]
      by_cases hsucc : body2.status = some "success" ∧ body2.data.status = some "success"
      · rw [if_pos hsucc]
        rcases hbk : findBooking s.bookings p.bookingId with _ | b2
        · exact List.mem_singleton_self _
        · dsimp only
          cases eqOk
          · exact List.mem_singleton_self _
          · exact List.mem_cons_self _ _
      · rw [if_neg hsucc]
        exact List.mem_singleton_self _
  · intro hos his hb
    have h1 := verify_success_eq s ref p b body eqOk hfind hnt hos his hb
    rw [h1]
    cases eqOk <;>
      · unfold successState
        by_cases hc : b.status = .confirmed <;>
          simp [hc, findPayment_updatePayment, hfind, completeP]
  · intro hfail
    unfold verify_chapa_payment
    rw [hfind]
    dsimp only
    rw [if_neg hnt]
    rw [if_neg hfail]
    simp [findPayment_updatePayment, hfind, failText]
  · unfold verify_chapa_payment
    rw [hfind]
    dsimp only
    rw [if_neg hnt]
    rw [if_neg hnp]
    exact ⟨rfl, rfl⟩

/-- Witness for C10 at the concrete canceled fixture. -/
theorem C10_canceled_reversed_reverified_witness :
    (∀ gw, Event.gatewayVerify refA ∈ (verify_chapa_payment sCan refA gw true).events) ∧
    findPayment (verify_chapa_payment sCan refA gwSuccess true).state.payments refA
      = some { payCan with status := .completed, statusText := "success" } ∧
    findPayment (verify_chapa_payment sCan refA gwDeclined true).state.payments refA
      = some { payCan with status := .failed, statusText := "insufficient funds" } ∧
    ((verify_chapa_payment sCan refA (.transportError "timeout") true).state = sCan ∧
      (verify_chapa_payment sCan refA (.transportError "timeout") true).resp
        = .redirect (apiErrorUrl refA)) := by
  have hsucc := (C10_canceled_reversed_reverified sCan refA payCan true "timeout"
    ⟨some "success", some "Payment details", ⟨some "success", none⟩⟩ bookingA
    (by decide) (by decide))
  have hdecl := (C10_canceled_reversed_reverified sCan refA payCan true "timeout"
    ⟨some "success", some "Payment details", ⟨some "failed", some "insufficient funds"⟩⟩
    bookingA (by decide) (by decide))
  exact ⟨hsucc.1, hsucc.2.1 (by decide) (by decide) (by decide),
    hdecl.2.2.1 (by decide), hdecl.2.2.2⟩

end AlxTravel
